import Mathlib

/-!
Verification development for the p2pool-starter-stack mining dashboard.

The definitions below are a shallow embedding of the decision-and-switching
core of the dashboard (`mining_dashboard/service/algo_service.py`,
`mining_dashboard/utils.py`, `mining_dashboard/algo.py`,
`mining_dashboard/service/storage_service.py`,
`mining_dashboard/client/xvb_client.py`, `mining_dashboard/config.py`).
Python floats are modelled as rationals (ℚ), Python ints as ℤ/ℕ, Python
dictionaries with string keys as association lists, and the wall-clock value
read by `time.time()` as an explicit `now : ℚ` argument.
-/

namespace MiningDashboard

/-- Python `d.get(k, dflt)` for a string-keyed table of rationals,
modelling the tier dictionaries. -/
def dictGet (d : List (String × ℚ)) (k : String) (dflt : ℚ) : ℚ :=
  match d.find? (fun kv => kv.1 == k) with
  | some kv => kv.2
  | none => dflt

namespace Config

/-- Total cycle length in milliseconds (`config.py` line 24). -/
def XVB_TIME_ALGO_MS : Int := 60000

/-- Minimum time to force a switch, in milliseconds (`config.py` line 25). -/
def XVB_MIN_TIME_SEND_MS : Int := 15000

/-- Default tier thresholds (`config.py`, `TIER_DEFAULTS`). -/
def TIER_DEFAULTS : List (String × ℚ) :=
  [("donor_mega", 1000000), ("donor_whale", 50000), ("donor_vip", 10000),
   ("mvp", 5000), ("donor", 0)]

end Config

/-- Modelled from the spec: the constants `ENABLE_XVB`, `ALGO_MARGIN_1H`,
`ALGO_TARGET_BUFFER` and `XVB_SWITCH_OVERHEAD_MS` are imported by
`algo_service.py` from a `config.config` module that is not present under the
sources; the spec describes them as externally injected configuration
("a global disable flag", "a configured tolerance", "buffer",
"switch_overhead_ms"), so they are modelled as explicit parameters. -/
structure AlgoConfig where
  enable_xvb : Bool
  margin_1h : ℚ
  target_buffer : ℚ
  switch_overhead_ms : ℚ

namespace Utils

/-- Embedding of `utils.get_tier_info` (`utils.py` lines 106-124):
determines the donation tier for a hashrate, returning
`(tier_name, tier_threshold)`.  Note that only the keys `donor_mega`,
`donor_whale`, `donor_vip` and `donor` are consulted. -/
def get_tier_info (hashrate : ℚ) (tiers : List (String × ℚ)) : String × ℚ :=
  let limit_mega := dictGet tiers "donor_mega" 0
  let limit_whale := dictGet tiers "donor_whale" 0
  let limit_vip := dictGet tiers "donor_vip" 0
  let limit_donor := dictGet tiers "donor" 0
  if 0 < limit_mega ∧ limit_mega ≤ hashrate then ("Mega (1 MH/s+)", limit_mega)
  else if 0 < limit_whale ∧ limit_whale ≤ hashrate then ("Whale (100 kH/s+)", limit_whale)
  else if 0 < limit_vip ∧ limit_vip ≤ hashrate then ("VIP (10 kH/s+)", limit_vip)
  else if 0 < limit_donor ∧ limit_donor ≤ hashrate then ("Donor (1 kH/s+)", limit_donor)
  else ("Standard", 0)

end Utils

/-- The xvb statistics read by the decision function
(`xvb_stats.get('fail_count', 0)`, `xvb_stats.get('avg_24h', 0)`,
`xvb_stats.get('avg_1h', 0)` in `algo_service.py`). -/
structure XvbStatsIn where
  fail_count : Int
  avg_24h : ℚ
  avg_1h : ℚ

namespace AlgoService

/-- Embedding of the share-window filter of `AlgoService.get_decision`
(`algo_service.py` lines 82-91): the number of shares whose timestamp lies
within the PPLNS window ending at `now` (the value of `time.time()` read
during the call).  A share is modelled by its `ts` field; a missing `ts`
defaults to 0 in the source and is modelled as the timestamp 0. -/
def shares_in_window_count (pool_type : String) (pplns_window : ℚ)
    (shares : List ℚ) (now : ℚ) : Nat :=
  let block_time : ℚ := if pool_type == "Nano" then 30 else 10
  let window_duration := pplns_window * block_time
  let cutoff := now - window_duration
  (shares.filter (fun s => cutoff ≤ s)).length

/-- Embedding of `AlgoService._get_target_donation_hr`
(`algo_service.py` lines 145-156): reserves a 15% margin on the stable
hashrate and selects the tier via `utils.get_tier_info`. -/
def target_donation_hr (tiers : List (String × ℚ)) (stable_hr : ℚ) : ℚ :=
  let safe_capacity := stable_hr * 0.85
  (Utils.get_tier_info safe_capacity tiers).2

/-- Embedding of `AlgoService._get_needed_time` (`algo_service.py`
lines 158-172): duration in ms needed to sustain the target average,
`math.ceil` modelled by `Rat.ceil`. -/
def get_needed_time (cfg : AlgoConfig) (current_hr target_hr : ℚ) : Int :=
  if current_hr = 0 then 0
  else
    let target_with_buffer := target_hr * (1 + cfg.target_buffer)
    let needed := target_with_buffer / current_hr * (Config.XVB_TIME_ALGO_MS : ℚ)
    Rat.ceil (needed + cfg.switch_overhead_ms)

/-- Embedding of `AlgoService.get_decision` (`algo_service.py` lines 60-143).
The dictionary reads `p2p_stats.get('type', 'Main')` and
`p2pool_stats.get('pplns_window', 2160)` are modelled by passing the two read
values `pool_type` and `pplns_window` directly; `now` is the value returned
by `time.time()` during the call. -/
def get_decision (cfg : AlgoConfig) (tiers : List (String × ℚ))
    (current_hr stable_hr : ℚ) (pool_type : String) (pplns_window : ℚ)
    (xvb : XvbStatsIn) (shares : List ℚ) (now : ℚ) : String × Int :=
  if cfg.enable_xvb = false then ("P2POOL", 0)
  else if shares_in_window_count pool_type pplns_window shares now = 0 then
    ("P2POOL", 0)
  else if 3 ≤ xvb.fail_count then ("P2POOL", 0)
  else
    let target_hr := target_donation_hr tiers stable_hr
    if target_hr = 0 then ("P2POOL", 0)
    else if ¬ (target_hr ≤ xvb.avg_24h ∧ target_hr * (1 - cfg.margin_1h) ≤ xvb.avg_1h) then
      ("XVB", Config.XVB_TIME_ALGO_MS)
    else
      let needed0 := get_needed_time cfg current_hr target_hr
      if 0 < needed0 then
        let needed1 := if needed0 < Config.XVB_MIN_TIME_SEND_MS then Config.XVB_MIN_TIME_SEND_MS else needed0
        let needed2 := if Config.XVB_TIME_ALGO_MS - needed1 < 30000 then Config.XVB_TIME_ALGO_MS else needed1
        if Config.XVB_TIME_ALGO_MS ≤ needed2 then ("XVB", Config.XVB_TIME_ALGO_MS)
        else ("SPLIT", needed2)
      else ("P2POOL", 0)

end AlgoService

/-- Embedding of the legacy `XvbAlgorithm._get_target_donation_hr`
(`algo.py` lines 79-108).  Unlike `utils.get_tier_info`, this version also
consults the `mvp` key, between `donor_vip` and `donor`. -/
def XvbAlgorithm.target_donation_hr (tiers : List (String × ℚ)) (current_hr : ℚ) : ℚ :=
  let safe_capacity := current_hr * 0.85
  let limit_mega := dictGet tiers "donor_mega" 0
  let limit_whale := dictGet tiers "donor_whale" 0
  let limit_vip := dictGet tiers "donor_vip" 0
  let limit_mvp := dictGet tiers "mvp" 0
  let limit_donor := dictGet tiers "donor" 0
  if 0 < limit_mega ∧ limit_mega ≤ safe_capacity then limit_mega
  else if 0 < limit_whale ∧ limit_whale ≤ safe_capacity then limit_whale
  else if 0 < limit_vip ∧ limit_vip ≤ safe_capacity then limit_vip
  else if 0 < limit_mvp ∧ limit_mvp ≤ safe_capacity then limit_mvp
  else if 0 < limit_donor ∧ limit_donor ≤ safe_capacity then limit_donor
  else 0

/-- Stated from the spec words of claim C3, for comparison with the code: the
highest tier threshold `T` present in the tier table (0-valued thresholds
excluded) such that `stable_hr * 0.85 ≥ T`; 0 when no entry qualifies. -/
def spec_highest_qualifying (tiers : List (String × ℚ)) (stable_hr : ℚ) : ℚ :=
  ((tiers.map Prod.snd).filter
      (fun t => decide (0 < t ∧ t ≤ stable_hr * 0.85))).foldr max 0

/-- Stated from the spec words of claim C3, restricted to the four tier keys
the service engine actually recognizes: the threshold contributed by one tier
(0 when it does not qualify). -/
def qualifying_threshold (capacity t : ℚ) : ℚ :=
  if 0 < t ∧ t ≤ capacity then t else 0

/-- Stated from the spec words of claim C3, restricted to the recognized keys:
the highest qualifying threshold among `donor_mega`, `donor_whale`,
`donor_vip` and `donor`. -/
def spec_highest_recognized (tiers : List (String × ℚ)) (stable_hr : ℚ) : ℚ :=
  let c := stable_hr * 0.85
  max (max (max (qualifying_threshold c (dictGet tiers "donor_mega" 0))
                (qualifying_threshold c (dictGet tiers "donor_whale" 0)))
           (qualifying_threshold c (dictGet tiers "donor_vip" 0)))
      (qualifying_threshold c (dictGet tiers "donor" 0))

namespace StateManager

/-- The `xvb` portion of the in-memory state managed by
`storage_service.StateManager` (`storage_service.py` lines 27-34). -/
structure XvbState where
  total_donated_time : ℚ
  current_mode : String
  avg_24h : ℚ
  avg_1h : ℚ
  fail_count : Int
  last_update : ℚ
deriving Repr

/-- The initial xvb state installed by `StateManager.__init__`. -/
def initial_xvb : XvbState :=
  { total_donated_time := 0, current_mode := "P2POOL", avg_24h := 0,
    avg_1h := 0, fail_count := 0, last_update := 0 }

/-- The keys of `self.state["xvb"]`, against which the kwargs loop of
`update_xvb_stats` checks membership (`if k in self.state["xvb"]`). -/
def xvb_field_names : List String :=
  ["total_donated_time", "current_mode", "avg_24h", "avg_1h", "fail_count", "last_update"]

/-- Assignment `self.state["xvb"][k] = v` for a numeric value arriving through
the kwargs loop of `update_xvb_stats`, including the int coercion applied when
the default value of the field is an int (`fail_count`; Python `int()` truncates
toward zero, modelled with the numerator and denominator of the rational). -/
def set_xvb_field (st : XvbState) (k : String) (v : ℚ) : XvbState :=
  if k = "total_donated_time" then { st with total_donated_time := v }
  else if k = "avg_24h" then { st with avg_24h := v }
  else if k = "avg_1h" then { st with avg_1h := v }
  else if k = "fail_count" then { st with fail_count := Int.tdiv v.num v.den }
  else if k = "last_update" then { st with last_update := v }
  else st

/-- The kwargs loop of `update_xvb_stats` (`storage_service.py` lines
250-268): keys not present in the xvb state — or equal to `current_mode` —
are silently skipped, `None` values are skipped, any applied entry sets the
`stats_updated` flag.  Returns the new state and the flag. -/
def apply_kwargs (st : XvbState) (su : Bool) :
    List (String × Option ℚ) → XvbState × Bool
  | [] => (st, su)
  | (k, v) :: rest =>
      if xvb_field_names.contains k ∧ k ≠ "current_mode" then
        match v with
        | none => apply_kwargs st su rest
        | some v => apply_kwargs (set_xvb_field st k v) true rest
      else apply_kwargs st su rest

/-- Embedding of `StateManager.update_xvb_stats` (`storage_service.py` lines
215-286), restricted to its effect on the in-memory xvb state; `now` is the
`time.time()` value read when bumping `last_update`. -/
def update_xvb_stats (st0 : XvbState) (mode : Option String)
    (avg_24h avg_1h : Option ℚ) (fail_count : Option Int)
    (kwargs : List (String × Option ℚ)) (now : ℚ) : XvbState :=
  let st1 := match mode with
    | some m => { st0 with current_mode := m }
    | none => st0
  let p2 : XvbState × Bool := match avg_24h with
    | some v => ({ st1 with avg_24h := v }, true)
    | none => (st1, false)
  let p3 : XvbState × Bool := match avg_1h with
    | some v => ({ p2.1 with avg_1h := v }, true)
    | none => p2
  let p4 : XvbState × Bool := match fail_count with
    | some v => ({ p3.1 with fail_count := v }, true)
    | none => p3
  let p5 := apply_kwargs p4.1 p4.2 kwargs
  if p5.2 then { p5.1 with last_update := now } else p5.1

/-- Embedding of the external-sync application
`self.state_manager.update_xvb_stats(**real_xvb_stats)` in
`data_service.run` (`data_service.py` lines 228-234), where
`real_xvb_stats` is the dictionary built by `XvbClient._parse_html`
(`xvb_client.py` lines 50-84) with keys `fail_count`, `1h_avg` and
`24h_avg`: under keyword splatting, the `fail_count` entry binds the named
parameter of `update_xvb_stats`, and the other two arrive through kwargs. -/
def apply_parsed_sync (st : XvbState) (fail_count : Int)
    (avg_1h avg_24h : ℚ) (now : ℚ) : XvbState :=
  update_xvb_stats st none none none (some fail_count)
    [("1h_avg", some avg_1h), ("24h_avg", some avg_24h)] now

end StateManager

namespace StateManager

/-- One entry of `self.state["hashrate_history"]`
(`storage_service.py` lines 181-187). -/
structure HistoryPoint where
  t : String
  v : ℚ
  v_p2pool : ℚ
  v_xvb : ℚ
  timestamp : ℚ
deriving Repr

/-- Python `round(x, 2)`: rounding to two decimal places, modelled as
rational half-up rounding (the float banker-rounding detail is immaterial
to the claims, which concern timestamps and ordering only). -/
def round2 (q : ℚ) : ℚ := ((Rat.floor (q * 100 + 1/2) : ℤ) : ℚ) / 100

/-- Embedding of `StateManager.update_history` (`storage_service.py` lines
167-208), restricted to its effect on the in-memory history buffer: append a
point carrying the current wall-clock timestamp `ts` (and its formatted text
`t_str`), then pop entries from the front while the head is older than
`ts - retention`.  The probabilistic DB pruning branch has no effect on the
in-memory buffer returned by `get_history`.  The retention constant
`HISTORY_RETENTION_SEC` is imported from a `config.config` module not present
under the sources, so it is the parameter `retention`. -/
def update_history (retention : ℚ) (hist : List HistoryPoint)
    (t_str : String) (ts hashrate p2pool_hr xvb_hr : ℚ) : List HistoryPoint :=
  let pt : HistoryPoint :=
    { t := t_str, v := round2 hashrate, v_p2pool := round2 p2pool_hr,
      v_xvb := round2 xvb_hr, timestamp := ts }
  let cutoff := ts - retention
  (hist ++ [pt]).dropWhile (fun p => decide (p.timestamp < cutoff))

/-- Embedding of `StateManager.get_history` (`storage_service.py` lines
364-367): returns (a copy of) the in-memory history buffer. -/
def get_history (hist : List HistoryPoint) : List HistoryPoint := hist

/-- The argument tuple of one `update_history` call, together with the
wall-clock timestamp `ts` read during that call. -/
structure HistoryAppend where
  t_str : String
  ts : ℚ
  hashrate : ℚ
  p2pool_hr : ℚ
  xvb_hr : ℚ

/-- A sequence of `update_history` calls applied in order. -/
def run_appends (retention : ℚ) (hist : List HistoryPoint)
    (l : List HistoryAppend) : List HistoryPoint :=
  l.foldl (fun h a => update_history retention h a.t_str a.ts a.hashrate a.p2pool_hr a.xvb_hr) hist

/-- Chronological order, oldest first. -/
def chrono (l : List HistoryPoint) : Prop :=
  l.Pairwise (fun p q => p.timestamp ≤ q.timestamp)
end StateManager

/-- A JSON-serializable Python value, as handled by `json.dumps`/`json.loads`
in `save_snapshot`/`load_snapshot`. -/
inductive Json where
  | null : Json
  | bool : Bool → Json
  | num : ℚ → Json
  | str : String → Json
  | arr : List Json → Json
  | obj : List (String × Json) → Json

/-- Python truthiness of a JSON-serializable value (`if not data` in
`save_snapshot`): `None`, `False`, `0`, `''`, `[]` and `{}` are falsy. -/
def Json.truthy : Json → Bool
  | .null => false
  | .bool b => b
  | .num q => decide (q ≠ 0)
  | .str s => decide (s ≠ "")
  | .arr l => !l.isEmpty
  | .obj l => !l.isEmpty

namespace StateManager

/-- Embedding of `StateManager.save_snapshot` (`storage_service.py` lines
329-342): `if not data: return` makes the write conditional on the data being
truthy; otherwise the `snapshot_latest_data` row is replaced with
`json.dumps(data)`.  The kv row is modelled as holding the parsed value
(`json.loads` is the inverse of `json.dumps` — the stdlib contract the spec
assumes of the persistence collaborator). -/
def save_snapshot (stored : Option Json) (data : Json) : Option Json :=
  if data.truthy then some data else stored

/-- Embedding of `StateManager.load_snapshot` (`storage_service.py` lines
344-357): returns the parsed `snapshot_latest_data` row if present, else
`None`.  In the source the `if row and row[0]` guard checks that the serialized
string is non-empty; `json.dumps` of any value is a non-empty string, so with
the row modelled as the parsed value the guard is row presence. -/
def load_snapshot (stored : Option Json) : Option Json := stored

end StateManager

/-! Theorems. -/

/-- C1: for every input to the decision function in which the count of
qualifying shares found in the current payout window of the local pool is 0, the
decision is `(P2POOL, 0)`, regardless of every other input (hashrates, fail
count, tier table, donation averages). -/
theorem C1_zero_shares_forces_p2pool (cfg : AlgoConfig) (tiers : List (String × ℚ))
    (current_hr stable_hr : ℚ) (pool_type : String) (pplns_window : ℚ)
    (xvb : XvbStatsIn) (shares : List ℚ) (now : ℚ)
    (h : AlgoService.shares_in_window_count pool_type pplns_window shares now = 0) :
    AlgoService.get_decision cfg tiers current_hr stable_hr pool_type pplns_window xvb shares now
      = ("P2POOL", 0) := by
  unfold AlgoService.get_decision
  rcases cfg.enable_xvb with _ | _ <;> simp [h]

/-- Witness for C1 at a concrete input with an empty share list. -/
theorem C1_zero_shares_forces_p2pool_w :
    AlgoService.get_decision ⟨true, 15/100, 1/10, 500⟩ Config.TIER_DEFAULTS
      30000 20000 "Main" 2160 ⟨0, 0, 0⟩ [] 1000 = ("P2POOL", 0) :=
  C1_zero_shares_forces_p2pool _ _ _ _ _ _ _ _ _ (by
    simp [AlgoService.shares_in_window_count])

/-- C2: for every input to the decision function in which the donation-stats
fail count is at least 3, the decision is `(P2POOL, 0)` — including inputs
where earlier rules (global disable flag, zero shares in window) also apply,
since every earlier rule returns the same result. -/
theorem C2_circuit_breaker (cfg : AlgoConfig) (tiers : List (String × ℚ))
    (current_hr stable_hr : ℚ) (pool_type : String) (pplns_window : ℚ)
    (xvb : XvbStatsIn) (shares : List ℚ) (now : ℚ)
    (h : 3 ≤ xvb.fail_count) :
    AlgoService.get_decision cfg tiers current_hr stable_hr pool_type pplns_window xvb shares now
      = ("P2POOL", 0) := by
  unfold AlgoService.get_decision
  rcases cfg.enable_xvb with _ | _ <;> simp [h]

/-- Witness for C2 at a concrete input with fail count 5 (and shares in the
window, so the circuit-breaker rule itself fires). -/
theorem C2_circuit_breaker_w :
    AlgoService.get_decision ⟨true, 15/100, 1/10, 500⟩ Config.TIER_DEFAULTS
      30000 20000 "Main" 2160 ⟨5, 20000, 20000⟩ [900] 1000 = ("P2POOL", 0) :=
  C2_circuit_breaker _ _ _ _ _ _ _ _ _ (by norm_num)

set_option maxHeartbeats 1000000 in
/-- C5: whenever the decision function returns mode `SPLIT`, the returned XvB
duration `d` satisfies `XVB_MIN_TIME_SEND_MS ≤ d ≤ XVB_TIME_ALGO_MS`; this
holds for every positive pre-clamp needed time, including values below the
minimum and values whose P2Pool remainder triggers promotion to a full XVB
cycle. -/
theorem C5_split_duration_bounds (cfg : AlgoConfig) (tiers : List (String × ℚ))
    (current_hr stable_hr : ℚ) (pool_type : String) (pplns_window : ℚ)
    (xvb : XvbStatsIn) (shares : List ℚ) (now : ℚ) (d : Int)
    (hd : AlgoService.get_decision cfg tiers current_hr stable_hr pool_type pplns_window xvb shares now
      = ("SPLIT", d)) :
    Config.XVB_MIN_TIME_SEND_MS ≤ d ∧ d ≤ Config.XVB_TIME_ALGO_MS := by
  simp only [AlgoService.get_decision, Config.XVB_TIME_ALGO_MS,
    Config.XVB_MIN_TIME_SEND_MS] at hd ⊢
  split_ifs at hd <;>
    simp only [Prod.mk.injEq] at hd <;>
    first
      | exact absurd hd.1 (by decide)
      | omega

/-- Witness for C5 at a concrete input that produces a genuine split cycle
(needed time 22500 ms out of a 60000 ms cycle). -/
theorem C5_split_duration_bounds_w :
    Config.XVB_MIN_TIME_SEND_MS ≤ (22500 : Int) ∧
      (22500 : Int) ≤ Config.XVB_TIME_ALGO_MS :=
  C5_split_duration_bounds ⟨true, 15/100, 1/10, 500⟩ Config.TIER_DEFAULTS
    30000 20000 "Main" 2160 ⟨0, 20000, 20000⟩ [900] 1000 22500 (by
      simp [AlgoService.get_decision, AlgoService.shares_in_window_count,
        AlgoService.target_donation_hr, AlgoService.get_needed_time,
        Utils.get_tier_info, dictGet, Config.TIER_DEFAULTS,
        Config.XVB_TIME_ALGO_MS, Config.XVB_MIN_TIME_SEND_MS]
      norm_num [Rat.ceil])

/-- Helper: the threshold selected by `get_tier_info` is either 0 or a
positive value not exceeding the given hashrate. -/
lemma get_tier_info_snd_cases (hr : ℚ) (tiers : List (String × ℚ)) :
    (Utils.get_tier_info hr tiers).2 = 0 ∨
      (0 < (Utils.get_tier_info hr tiers).2 ∧ (Utils.get_tier_info hr tiers).2 ≤ hr) := by
  simp only [Utils.get_tier_info]
  split_ifs <;> simp_all

/-- Helper: the threshold selected by `get_tier_info` is monotone in the
hashrate, for every tier table. -/
lemma get_tier_info_snd_mono (tiers : List (String × ℚ)) {a b : ℚ} (hab : a ≤ b) :
    (Utils.get_tier_info a tiers).2 ≤ (Utils.get_tier_info b tiers).2 := by
  have hc := get_tier_info_snd_cases a tiers
  simp only [Utils.get_tier_info] at hc ⊢
  split_ifs at hc ⊢ <;> push_neg at * <;>
    first
      | rfl
      | linarith
      | (rcases hc with hc | hc <;> simp_all <;> linarith)

/-- C4: for every tier table and every pair of stable hashrates `h1 ≤ h2`,
with all other decision inputs held fixed, the target donation hashrate
selected for `h2` is at least the target selected for `h1` (tier selection is
monotonic in capacity), including for tier tables whose thresholds are not in
descending order of the fixed evaluation sequence mega, whale, vip, donor. -/
theorem C4_target_monotone (tiers : List (String × ℚ)) (h1 h2 : ℚ) (hh : h1 ≤ h2) :
    AlgoService.target_donation_hr tiers h1 ≤ AlgoService.target_donation_hr tiers h2 := by
  unfold AlgoService.target_donation_hr
  exact get_tier_info_snd_mono tiers (by nlinarith)

/-- Witness for C4 on a tier table whose thresholds are out of the
conventional descending order (`donor_whale` below `donor_vip`). -/
theorem C4_target_monotone_w :
    AlgoService.target_donation_hr [("donor_whale", 10000), ("donor_vip", 50000)] 20000 ≤
      AlgoService.target_donation_hr [("donor_whale", 10000), ("donor_vip", 50000)] 70000 :=
  C4_target_monotone _ 20000 70000 (by norm_num)

/-- Helper: the threshold component of `get_tier_info` written as a bare
if-chain over the four recognized lookups. -/
lemma get_tier_info_snd_eq (hr : ℚ) (tiers : List (String × ℚ)) :
    (Utils.get_tier_info hr tiers).2 =
      (if 0 < dictGet tiers "donor_mega" 0 ∧ dictGet tiers "donor_mega" 0 ≤ hr then
        dictGet tiers "donor_mega" 0
      else if 0 < dictGet tiers "donor_whale" 0 ∧ dictGet tiers "donor_whale" 0 ≤ hr then
        dictGet tiers "donor_whale" 0
      else if 0 < dictGet tiers "donor_vip" 0 ∧ dictGet tiers "donor_vip" 0 ≤ hr then
        dictGet tiers "donor_vip" 0
      else if 0 < dictGet tiers "donor" 0 ∧ dictGet tiers "donor" 0 ≤ hr then
        dictGet tiers "donor" 0
      else 0) := by
  simp only [Utils.get_tier_info]
  split_ifs <;> rfl

set_option maxHeartbeats 1600000 in
/-- Helper: on a descending chain of four thresholds, first-match selection
agrees with the maximum of the qualifying thresholds. -/
lemma first_match_eq_max (c m w v d : ℚ) (hmw : w ≤ m) (hwv : v ≤ w) (hvd : d ≤ v) :
    (if 0 < m ∧ m ≤ c then m else if 0 < w ∧ w ≤ c then w
      else if 0 < v ∧ v ≤ c then v else if 0 < d ∧ d ≤ c then d else 0)
      = max (max (max (if 0 < m ∧ m ≤ c then m else 0) (if 0 < w ∧ w ≤ c then w else 0))
          (if 0 < v ∧ v ≤ c then v else 0)) (if 0 < d ∧ d ≤ c then d else 0) := by
  split_ifs <;> push_neg at * <;> simp only [max_def] <;> split_ifs <;> linarith

/-- C3 counterexample: for the tier table whose only entry is
`mvp = 100` and stable hashrate 200 (so `200 * 0.85 = 170 ≥ 100` and `mvp` is
the only — hence highest — qualifying threshold present), the decision
target computed by the engine is 0, not 100: `utils.get_tier_info` never consults the
`mvp` key. -/
theorem C3_counterexample :
    AlgoService.target_donation_hr [("mvp", 100)] 200 = 0 ∧
      spec_highest_qualifying [("mvp", 100)] 200 = 100 := by
  constructor
  · simp [AlgoService.target_donation_hr, Utils.get_tier_info, dictGet]
  · simp [spec_highest_qualifying]
    norm_num

/-- C3 (amended): (1) for every tier table whose recognized thresholds
(`donor_mega`, `donor_whale`, `donor_vip`, `donor`) form a descending chain —
the ordering prescribed by the data model section of the spec — the target equals the highest
recognized threshold `T` with `stable_hr * 0.85 ≥ T` (0-valued thresholds
excluded); entries under any other key, including `mvp`, are ignored by the
service engine; (2) when no recognized tier qualifies (target 0) the decision
is `(P2POOL, 0)`; (3) only the legacy `algo.py` engine also recognizes `mvp`:
there, when no recognized higher tier qualifies and `mvp` does, the target is
the `mvp` threshold. -/
theorem C3_target_tier_selection :
    (∀ (tiers : List (String × ℚ)) (s : ℚ),
      dictGet tiers "donor_whale" 0 ≤ dictGet tiers "donor_mega" 0 →
      dictGet tiers "donor_vip" 0 ≤ dictGet tiers "donor_whale" 0 →
      dictGet tiers "donor" 0 ≤ dictGet tiers "donor_vip" 0 →
      AlgoService.target_donation_hr tiers s = spec_highest_recognized tiers s) ∧
    (∀ (cfg : AlgoConfig) (tiers : List (String × ℚ))
      (current_hr stable_hr : ℚ) (pool_type : String) (pplns_window : ℚ)
      (xvb : XvbStatsIn) (shares : List ℚ) (now : ℚ),
      AlgoService.target_donation_hr tiers stable_hr = 0 →
      AlgoService.get_decision cfg tiers current_hr stable_hr pool_type pplns_window xvb shares now
        = ("P2POOL", 0)) ∧
    (∀ (tiers : List (String × ℚ)) (s : ℚ),
      ¬ (0 < dictGet tiers "donor_mega" 0 ∧ dictGet tiers "donor_mega" 0 ≤ s * 0.85) →
      ¬ (0 < dictGet tiers "donor_whale" 0 ∧ dictGet tiers "donor_whale" 0 ≤ s * 0.85) →
      ¬ (0 < dictGet tiers "donor_vip" 0 ∧ dictGet tiers "donor_vip" 0 ≤ s * 0.85) →
      0 < dictGet tiers "mvp" 0 ∧ dictGet tiers "mvp" 0 ≤ s * 0.85 →
      XvbAlgorithm.target_donation_hr tiers s = dictGet tiers "mvp" 0) := by
  refine ⟨fun tiers s h1 h2 h3 => ?_, fun cfg tiers current_hr stable_hr pt pw xvb sh now h => ?_,
    fun tiers s hm hw hv hmvp => ?_⟩
  · unfold AlgoService.target_donation_hr spec_highest_recognized qualifying_threshold
    rw [get_tier_info_snd_eq]
    exact first_match_eq_max _ _ _ _ _ h1 h2 h3
  · unfold AlgoService.get_decision
    rcases cfg.enable_xvb with _ | _ <;> simp [h]
  · simp only [XvbAlgorithm.target_donation_hr]
    rw [if_neg hm, if_neg hw, if_neg hv, if_pos hmvp]

/-- Witness for C3 (amended): part (1) on the default tier table at stable
hashrate 20000 (target `donor_vip = 10000`), part (2) on an empty tier table,
part (3) on the `mvp`-only table of the counterexample. -/
theorem C3_target_tier_selection_w :
    AlgoService.target_donation_hr Config.TIER_DEFAULTS 20000
        = spec_highest_recognized Config.TIER_DEFAULTS 20000 ∧
      AlgoService.get_decision ⟨true, 15/100, 1/10, 500⟩ [] 30000 20000 "Main" 2160
        ⟨0, 20000, 20000⟩ [900] 1000 = ("P2POOL", 0) ∧
      XvbAlgorithm.target_donation_hr [("mvp", 100)] 200 = 100 := by
  refine ⟨C3_target_tier_selection.1 Config.TIER_DEFAULTS 20000 ?_ ?_ ?_,
    C3_target_tier_selection.2.1 _ [] 30000 20000 "Main" 2160 ⟨0, 20000, 20000⟩ [900] 1000 ?_, ?_⟩
  · simp [dictGet, Config.TIER_DEFAULTS] <;> norm_num
  · simp [dictGet, Config.TIER_DEFAULTS] <;> norm_num
  · simp [dictGet, Config.TIER_DEFAULTS]
  · simp [AlgoService.target_donation_hr, Utils.get_tier_info, dictGet]
  · have h := C3_target_tier_selection.2.2 [("mvp", 100)] 200
    rw [h] <;> simp [dictGet] <;> norm_num

/-- C9 counterexample: two calls of the decision function with identical
explicit argument values but different wall-clock instants (the `time.time()`
read inside share-window filtering) return different results: at time 1000
the share at timestamp 1000 lies inside the PPLNS window and the unfulfilled
target forces `(XVB, 60000)`, while at time 1000000 the window is empty and
the result is `(P2POOL, 0)`. -/
theorem C9_counterexample :
    AlgoService.get_decision ⟨true, 15/100, 1/10, 500⟩ Config.TIER_DEFAULTS
        30000 20000 "Main" 2160 ⟨0, 0, 0⟩ [1000] 1000 ≠
      AlgoService.get_decision ⟨true, 15/100, 1/10, 500⟩ Config.TIER_DEFAULTS
        30000 20000 "Main" 2160 ⟨0, 0, 0⟩ [1000] 1000000 := by
  have h1 : AlgoService.get_decision ⟨true, 15/100, 1/10, 500⟩ Config.TIER_DEFAULTS
      30000 20000 "Main" 2160 ⟨0, 0, 0⟩ [1000] 1000 = ("XVB", 60000) := by
    simp [AlgoService.get_decision, AlgoService.shares_in_window_count,
      AlgoService.target_donation_hr, Utils.get_tier_info, dictGet,
      Config.TIER_DEFAULTS, Config.XVB_TIME_ALGO_MS]
    norm_num
  have h2 : AlgoService.get_decision ⟨true, 15/100, 1/10, 500⟩ Config.TIER_DEFAULTS
      30000 20000 "Main" 2160 ⟨0, 0, 0⟩ [1000] 1000000 = ("P2POOL", 0) := by
    simp [AlgoService.get_decision, AlgoService.shares_in_window_count,
      AlgoService.target_donation_hr, Utils.get_tier_info, dictGet,
      Config.TIER_DEFAULTS]
    norm_num
  rw [h1, h2]
  simp

/-- C9 (amended): the decision function reads the wall clock during
share-window filtering, so its result is a function of the explicit inputs
and that clock value — and of the clock value only through the
shares-in-window count: two calls with identical explicit inputs whose clock
reads yield the same count return identical output. -/
theorem C9_depends_only_on_window_count (cfg : AlgoConfig) (tiers : List (String × ℚ))
    (current_hr stable_hr : ℚ) (pool_type : String) (pplns_window : ℚ)
    (xvb : XvbStatsIn) (shares : List ℚ) (now1 now2 : ℚ)
    (h : AlgoService.shares_in_window_count pool_type pplns_window shares now1 =
      AlgoService.shares_in_window_count pool_type pplns_window shares now2) :
    AlgoService.get_decision cfg tiers current_hr stable_hr pool_type pplns_window xvb shares now1 =
      AlgoService.get_decision cfg tiers current_hr stable_hr pool_type pplns_window xvb shares now2 := by
  unfold AlgoService.get_decision
  rw [h]

/-- Witness for C9 (amended): two distinct clock instants, 1000 and 2000,
under both of which the single share at timestamp 900 is inside the window. -/
theorem C9_depends_only_on_window_count_w :
    AlgoService.get_decision ⟨true, 15/100, 1/10, 500⟩ Config.TIER_DEFAULTS
        30000 20000 "Main" 2160 ⟨0, 0, 0⟩ [900] 1000 =
      AlgoService.get_decision ⟨true, 15/100, 1/10, 500⟩ Config.TIER_DEFAULTS
        30000 20000 "Main" 2160 ⟨0, 0, 0⟩ [900] 2000 :=
  C9_depends_only_on_window_count _ _ _ _ _ _ _ _ _ _ (by
    simp [AlgoService.shares_in_window_count]
    norm_num)

/-- C6: the code contradicts its own consumers here.  Evaluating the
external-sync application at the failing input — a successful sync parsed as
`{'fail_count': 2, '1h_avg': 5000.0, '24h_avg': 6000.0}` applied to the
freshly initialized state — shows that `fail_count` is stored but the two
averages are silently dropped: `_parse_html` still emits the legacy keys
`1h_avg`/`24h_avg`, which are not fields of the xvb state, so the kwargs
schema filter of `update_xvb_stats` discards them and `avg_1h`/`avg_24h`
remain 0 instead of 5000/6000. -/
theorem C6_sync_drops_averages :
    (StateManager.apply_parsed_sync StateManager.initial_xvb 2 5000 6000 77).avg_1h = 0 ∧
    (StateManager.apply_parsed_sync StateManager.initial_xvb 2 5000 6000 77).avg_24h = 0 ∧
    (StateManager.apply_parsed_sync StateManager.initial_xvb 2 5000 6000 77).fail_count = 2 ∧
    (0 : ℚ) ≠ 5000 ∧ (0 : ℚ) ≠ 6000 := by
  refine ⟨?_, ?_, ?_, by norm_num, by norm_num⟩ <;>
    simp [StateManager.apply_parsed_sync, StateManager.update_xvb_stats,
      StateManager.apply_kwargs, StateManager.xvb_field_names,
      StateManager.set_xvb_field, StateManager.initial_xvb]

/-- C10 counterexample: a call that provides a numeric field whose value
equals the current stored value of that field (`avg_1h = 0.0` on the initial state)
still bumps `last_update` (from 0 to the clock value of the call 55), because
`update_xvb_stats` sets `stats_updated` whenever a numeric field is provided,
without comparing it to the stored value. -/
theorem C10_counterexample :
    (StateManager.update_xvb_stats StateManager.initial_xvb none none (some 0) none [] 55).avg_1h
        = StateManager.initial_xvb.avg_1h ∧
      (StateManager.update_xvb_stats StateManager.initial_xvb none none (some 0) none [] 55).last_update = 55 ∧
      StateManager.initial_xvb.last_update = 0 ∧ (55 : ℚ) ≠ 0 := by
  refine ⟨?_, ?_, rfl, by norm_num⟩ <;>
    simp [StateManager.update_xvb_stats, StateManager.apply_kwargs,
      StateManager.initial_xvb]

/-- C10 (amended): `update_xvb_stats` bumps `last_update` exactly when at
least one numeric (non-mode) field is provided (is not `None`), regardless of
whether the provided value differs from the stored one; a call providing only
the mode leaves `last_update` unchanged; fields for which no value is
provided keep their previous values. -/
theorem C10_update_field_semantics (st : StateManager.XvbState)
    (mode : Option String) (a24 a1 : Option ℚ) (fc : Option Int) (now : ℚ) :
    (StateManager.update_xvb_stats st mode a24 a1 fc [] now).current_mode
        = mode.getD st.current_mode ∧
      (StateManager.update_xvb_stats st mode a24 a1 fc [] now).avg_24h
        = a24.getD st.avg_24h ∧
      (StateManager.update_xvb_stats st mode a24 a1 fc [] now).avg_1h
        = a1.getD st.avg_1h ∧
      (StateManager.update_xvb_stats st mode a24 a1 fc [] now).fail_count
        = fc.getD st.fail_count ∧
      (StateManager.update_xvb_stats st mode a24 a1 fc [] now).total_donated_time
        = st.total_donated_time ∧
      (StateManager.update_xvb_stats st mode a24 a1 fc [] now).last_update
        = (if a24.isSome || a1.isSome || fc.isSome then now else st.last_update) := by
  rcases mode with _ | m <;> rcases a24 with _ | x <;> rcases a1 with _ | y <;>
    rcases fc with _ | z <;>
    simp [StateManager.update_xvb_stats, StateManager.apply_kwargs]

namespace StateManager

/-- Helper: dropping the stale front of a chronologically ordered list leaves
no element below the cutoff. -/
lemma dropWhile_stale_bound (c : ℚ) :
    ∀ (l : List HistoryPoint), chrono l →
      ∀ p ∈ l.dropWhile (fun p => decide (p.timestamp < c)), ¬ p.timestamp < c := by
  intro l
  induction l with
  | nil => intro _ p hp; simp [List.dropWhile] at hp
  | cons x xs ih =>
      intro hchain p hp
      rw [List.dropWhile_cons] at hp
      rw [chrono, List.pairwise_cons] at hchain
      by_cases hx : x.timestamp < c
      · rw [if_pos (by simpa using hx)] at hp
        exact ih hchain.2 p hp
      · rw [if_neg (by simpa using hx)] at hp
        rcases List.mem_cons.mp hp with rfl | hmem
        · exact hx
        · have := hchain.1 p hmem
          intro hlt; exact hx (lt_of_le_of_lt this hlt)

/-- Helper: one `update_history` call preserves chronological order when the
new timestamp is at least every stored timestamp, and every surviving point
either was already stored or carries the new timestamp. -/
lemma update_history_step (retention : ℚ) (hist : List HistoryPoint)
    (t_str : String) (ts a b c : ℚ) (hh : chrono hist)
    (hb : ∀ p ∈ hist, p.timestamp ≤ ts) :
    chrono (update_history retention hist t_str ts a b c) ∧
      ∀ p ∈ update_history retention hist t_str ts a b c,
        p ∈ hist ∨ p.timestamp = ts := by
  have happ : chrono (hist ++
      [{ t := t_str, v := round2 a, v_p2pool := round2 b,
         v_xvb := round2 c, timestamp := ts }]) := by
    rw [chrono, List.pairwise_append]
    refine ⟨hh, by simp, ?_⟩
    intro p hp q hq
    simp at hq
    subst hq
    exact hb p hp
  constructor
  · exact List.Pairwise.sublist (List.dropWhile_sublist _) happ
  · intro p hp
    have hmem : p ∈ hist ++
        [{ t := t_str, v := round2 a, v_p2pool := round2 b,
           v_xvb := round2 c, timestamp := ts }] :=
      (List.dropWhile_sublist _).mem hp
    rcases List.mem_append.mp hmem with h | h
    · exact Or.inl h
    · right; simp at h; subst h; rfl

/-- Helper: a chronologically ordered starting buffer whose timestamps are
below every pending append, processed through a monotone sequence of appends,
stays chronologically ordered, and every surviving point either came from the
start or carries the timestamp of one of the appends. -/
lemma run_appends_invariant (retention : ℚ) :
    ∀ (l : List HistoryAppend) (hist : List HistoryPoint),
      chrono hist →
      ((l.map HistoryAppend.ts).Pairwise (· ≤ ·)) →
      (∀ p ∈ hist, ∀ b ∈ l, p.timestamp ≤ b.ts) →
      chrono (run_appends retention hist l) ∧
        ∀ p ∈ run_appends retention hist l,
          p ∈ hist ∨ ∃ b ∈ l, p.timestamp = b.ts := by
  intro l
  induction l with
  | nil => intro hist hh _ _; exact ⟨hh, fun p hp => Or.inl hp⟩
  | cons a rest ih =>
      intro hist hh hl hbnd
      have hstep := update_history_step retention hist a.t_str a.ts
        a.hashrate a.p2pool_hr a.xvb_hr hh
        (fun p hp => hbnd p hp a (List.mem_cons_self a rest))
      rw [List.map_cons, List.pairwise_cons] at hl
      have hrec := ih (update_history retention hist a.t_str a.ts a.hashrate a.p2pool_hr a.xvb_hr)
        hstep.1 hl.2 ?_
      · refine ⟨hrec.1, ?_⟩
        intro p hp
        rcases hrec.2 p hp with hmem | ⟨b, hb, hts⟩
        · rcases hstep.2 p hmem with h | h
          · exact Or.inl h
          · exact Or.inr ⟨a, List.mem_cons_self a rest, h⟩
        · exact Or.inr ⟨b, List.mem_cons_of_mem a hb, hts⟩
      · intro p hp b hb
        rcases hstep.2 p hp with h | h
        · exact hbnd p h b (List.mem_cons_of_mem a hb)
        · rw [h]
          exact hl.1 b.ts (List.mem_map_of_mem HistoryAppend.ts hb)

/-- C7: for every sequence of history appends whose wall-clock timestamps are
non-decreasing (the clock reads of successive `time.time()` calls),
immediately after the last append `get_history` contains no point whose
timestamp is older than the last append time minus the retention window, and
the returned sequence is in chronological order, oldest first. -/
theorem C7_history_retention (retention : ℚ)
    (l : List HistoryAppend) (a : HistoryAppend)
    (hmono : (((l ++ [a]).map HistoryAppend.ts).Pairwise (· ≤ ·))) :
    (∀ p ∈ get_history (run_appends retention [] (l ++ [a])),
        ¬ p.timestamp < a.ts - retention) ∧
      chrono (get_history (run_appends retention [] (l ++ [a]))) := by
  have hsplit : run_appends retention [] (l ++ [a]) =
      update_history retention (run_appends retention [] l)
        a.t_str a.ts a.hashrate a.p2pool_hr a.xvb_hr := by
    simp [run_appends, List.foldl_append]
  rw [List.map_append, List.pairwise_append] at hmono
  have hmid := run_appends_invariant retention l [] (by simp [chrono]) hmono.1 (by simp)
  have hbnd : ∀ p ∈ run_appends retention [] l, p.timestamp ≤ a.ts := by
    intro p hp
    rcases hmid.2 p hp with h | ⟨b, hb, hts⟩
    · simp at h
    · rw [hts]
      exact hmono.2.2 b.ts (List.mem_map_of_mem HistoryAppend.ts hb) a.ts (by simp)
  have hstep := update_history_step retention (run_appends retention [] l)
    a.t_str a.ts a.hashrate a.p2pool_hr a.xvb_hr hmid.1 hbnd
  constructor
  · intro p hp
    rw [get_history, hsplit] at hp
    refine dropWhile_stale_bound (a.ts - retention) _ ?_ p hp
    rw [chrono, List.pairwise_append]
    refine ⟨hmid.1, by simp, ?_⟩
    intro x hx q hq
    simp at hq
    subst hq
    exact hbnd x hx
  · rw [get_history, hsplit]
    exact hstep.1

end StateManager

/-- Witness for C7: two appends at timestamps 0 and 20 with retention window
10; the theorem applies and, concretely, the first point is pruned. -/
theorem C7_history_retention_w :
    (∀ p ∈ StateManager.get_history (StateManager.run_appends 10 []
        ([⟨"t1", 0, 100, 100, 0⟩] ++ [⟨"t2", 20, 200, 0, 200⟩])),
      ¬ p.timestamp < (20 : ℚ) - 10) ∧
    StateManager.chrono (StateManager.get_history (StateManager.run_appends 10 []
        ([⟨"t1", 0, 100, 100, 0⟩] ++ [⟨"t2", 20, 200, 0, 200⟩]))) :=
  StateManager.C7_history_retention 10 [⟨"t1", 0, 100, 100, 0⟩] ⟨"t2", 20, 200, 0, 200⟩ (by
    simp)

/-- C8 counterexample: saving the empty dictionary into a fresh store and
loading back does not return the empty dictionary — `save_snapshot` refuses
falsy data (`if not data: return`), so `load_snapshot` still returns `None`. -/
theorem C8_counterexample :
    StateManager.load_snapshot (StateManager.save_snapshot none (Json.obj []))
      ≠ some (Json.obj []) := by
  simp [StateManager.load_snapshot, StateManager.save_snapshot, Json.truthy]

/-- C8 (amended): for every truthy serializable value X, `save_snapshot(X)`
followed by `load_snapshot` (including across a process restart reloading the
same database row) returns X; for falsy X (the empty dictionary and the other
falsy serializable values) `save_snapshot` is a no-op, so `load_snapshot`
returns whatever snapshot was stored before — `None` on a fresh store. -/
theorem C8_snapshot_roundtrip (stored : Option Json) (data : Json) :
    (data.truthy = true →
      StateManager.load_snapshot (StateManager.save_snapshot stored data) = some data) ∧
    (data.truthy = false →
      StateManager.load_snapshot (StateManager.save_snapshot stored data)
        = StateManager.load_snapshot stored) := by
  constructor <;> intro h <;>
    simp [StateManager.load_snapshot, StateManager.save_snapshot, h]

/-- Witness for C8 (amended): a non-empty dictionary round-trips through a
fresh store; the empty dictionary leaves the fresh store empty. -/
theorem C8_snapshot_roundtrip_w :
    StateManager.load_snapshot (StateManager.save_snapshot none
        (Json.obj [("workers", Json.num 3)])) = some (Json.obj [("workers", Json.num 3)]) ∧
      StateManager.load_snapshot (StateManager.save_snapshot none (Json.obj []))
        = StateManager.load_snapshot none :=
  ⟨(C8_snapshot_roundtrip none (Json.obj [("workers", Json.num 3)])).1 (by rfl),
    (C8_snapshot_roundtrip none (Json.obj [])).2 (by rfl)⟩

end MiningDashboard
